import Mathlib

/-!
Verification of the decision-and-dispatch pipeline of the octopus-fi/agent
repository: health classification, analyzer fallback rules, rate limiter,
cooldown gate, executor dispatch, batch ordering and the monitor scheduler.

Every definition is a shallow embedding of the corresponding TypeScript
source. Machine integers (JS numbers holding integral milliseconds or basis
points, and BigInt token amounts) are modelled as ℤ; the float divisions
`(Date.now() - last) / 1000` and confidence values are modelled exactly in ℚ.
External collaborators (the Gemini backend, the Sui chain client) are
modelled as explicit outcome parameters, so each embedded operation is a
pure function of its inputs and the collaborator outcomes.
-/

namespace Octopus

/-- Health tiers, ordered from least to most severe (src/types `HealthStatus`). -/
inductive HealthStatus where
  | HEALTHY
  | WARNING
  | AT_RISK
  | CRITICAL
  | LIQUIDATABLE
deriving DecidableEq, Repr

/-- Recommended actions, ordered by severity (src/types `RecommendedAction`). -/
inductive RecommendedAction where
  | NONE
  | MONITOR
  | CLAIM_REWARDS
  | REBALANCE
  | URGENT_REBALANCE
deriving DecidableEq, Repr

/-- Numeric rank of a health tier, for stating monotonicity of the classifier. -/
def tierRank : HealthStatus → ℕ
  | .HEALTHY => 0
  | .WARNING => 1
  | .AT_RISK => 2
  | .CRITICAL => 3
  | .LIQUIDATABLE => 4

/-- Threshold profile in basis points (src/types `LtvThresholds`, defaults in
src/config: warning 6000, rebalance 6500, maxBorrow 7000, liquidation 8000). -/
structure LtvThresholds where
  warning : ℤ
  rebalance : ℤ
  maxBorrow : ℤ
  liquidation : ℤ
deriving DecidableEq, Repr

/-- Strictly increasing boundaries, the profile invariant stated in the spec. -/
def LtvThresholds.StrictlyIncreasing (t : LtvThresholds) : Prop :=
  t.warning < t.rebalance ∧ t.rebalance < t.maxBorrow ∧ t.maxBorrow < t.liquidation

instance (t : LtvThresholds) : Decidable t.StrictlyIncreasing := by
  unfold LtvThresholds.StrictlyIncreasing; infer_instance

/-- System default profile from src/config/index.ts `loadConfig`. -/
def defaultThresholds : LtvThresholds :=
  { warning := 6000, rebalance := 6500, maxBorrow := 7000, liquidation := 8000 }

/-- Vault health snapshot (src/types `VaultHealthMetrics`); BigInt amounts as ℤ. -/
structure VaultHealthMetrics where
  vaultId : String
  owner : String
  collateralValue : ℤ
  debtValue : ℤ
  ltvBps : ℤ
  healthStatus : HealthStatus
  rewardReserve : ℤ
  pendingRewards : ℤ
  recommendedAction : RecommendedAction
deriving DecidableEq, Repr

/-- Health classification from `SuiService.calculateVaultHealth`
(src/unnamed/part_001 lines 179-197): an if-chain of inclusive lower-bound
comparisons `ltvBps >= threshold`, most severe first. -/
def classifyHealth (ltvBps : ℤ) (t : LtvThresholds) :
    HealthStatus × RecommendedAction :=
  if t.liquidation ≤ ltvBps then (.LIQUIDATABLE, .URGENT_REBALANCE)
  else if t.maxBorrow ≤ ltvBps then (.CRITICAL, .URGENT_REBALANCE)
  else if t.rebalance ≤ ltvBps then (.AT_RISK, .REBALANCE)
  else if t.warning ≤ ltvBps then (.WARNING, .CLAIM_REWARDS)
  else (.HEALTHY, .NONE)

end Octopus

namespace Octopus

/-- Recorded call timestamps that are "recent" at time `now`: strictly newer
than `now - 60000` (src/utils/rate-limiter.ts line 26, `t > oneMinuteAgo`). -/
def recentCalls (calls : List ℤ) (now : ℤ) : List ℤ :=
  calls.filter (fun t => decide (now - 60000 < t))

/-- Outcome of one evaluation of `RateLimiter.waitForSlot`: either the call
is admitted, or the caller must sleep the given milliseconds and re-check. -/
inductive SlotOutcome where
  | admitted
  | wait (ms : ℤ)
deriving DecidableEq, Repr

/-- One evaluation of `RateLimiter.waitForSlot` (rate-limiter.ts lines 21-42):
prune to recent calls; if at the cap, keep the pruned list and wait
`lastCalls[0] + 60000 - now + 100`; otherwise record `now` by appending it. -/
def waitForSlotStep (maxCallsPerMinute : ℕ) (calls : List ℤ) (now : ℤ) :
    List ℤ × SlotOutcome :=
  let recent := recentCalls calls now
  if maxCallsPerMinute ≤ recent.length then
    (recent, .wait (recent.headD 0 + 60000 - now + 100))
  else
    (recent ++ [now], .admitted)

/-- Number of recorded timestamps inside the trailing window `(T-60000, T]`. -/
def countWindow (calls : List ℤ) (T : ℤ) : ℕ :=
  (calls.filter (fun t => decide (T - 60000 < t) && decide (t ≤ T))).length

/-- State of the recorded-call list after a sequence of `waitForSlot`
evaluations at the given attempt times, starting from a fresh limiter. -/
def rateLimiterRun (maxCallsPerMinute : ℕ) (attempts : List ℤ) : List ℤ :=
  attempts.foldl (fun calls now => (waitForSlotStep maxCallsPerMinute calls now).1) []

/-- Cooldown map owned by `VaultCooldown`: vault id to last-action time (ms). -/
def CooldownMap := String → Option ℤ

/-- Fresh cooldown tracker with no recorded actions. -/
def emptyCooldown : CooldownMap := fun _ => none

/-- Embedding of `VaultCooldown.canAct` (rate-limiter.ts lines 75-81). The JS
guard `if (!lastAction) return true` is a falsy test, so a stored timestamp
of exactly 0 is also treated as absent; the float `(now - last) / 1000` is
modelled exactly in ℚ. -/
def canAct (m : CooldownMap) (cooldownSeconds : ℚ) (vaultId : String)
    (now : ℤ) : Bool :=
  match m vaultId with
  | none => true
  | some last =>
    if last = 0 then true
    else decide (cooldownSeconds ≤ (((now : ℚ) - (last : ℚ)) / 1000))

/-- Embedding of `VaultCooldown.recordAction`: stamp `now` unconditionally. -/
def recordAction (m : CooldownMap) (vaultId : String) (now : ℤ) : CooldownMap :=
  fun k => if k = vaultId then some now else m k

/-- Embedding of `VaultCooldown.getTimeUntilReady` (rate-limiter.ts 87-93). -/
def getTimeUntilReady (m : CooldownMap) (cooldownSeconds : ℚ) (vaultId : String)
    (now : ℤ) : ℚ :=
  match m vaultId with
  | none => 0
  | some last =>
    if last = 0 then 0
    else max 0 (cooldownSeconds - (((now : ℚ) - (last : ℚ)) / 1000))

/-- Embedding of `VaultCooldown.cleanup` (rate-limiter.ts 96-105): delete a
record exactly when `now - lastAction > cooldownSeconds * 2 * 1000`. -/
def cleanupCooldown (m : CooldownMap) (cooldownSeconds : ℚ) (now : ℤ) :
    CooldownMap :=
  fun k => match m k with
  | none => none
  | some last =>
    if cooldownSeconds * 2 * 1000 < ((now - last : ℤ) : ℚ) then none
    else some last

/-- Analysis result (src/types `AnalysisResult`); confidence modelled in ℚ. -/
structure AnalysisResult where
  vaultId : String
  shouldAct : Bool
  action : RecommendedAction
  reasoning : String
  confidence : ℚ
  estimatedRewardsNeeded : ℤ
  availableRewards : ℤ
deriving DecidableEq, Repr

/-- Embedding of `AnalyzerAgent.parseAction` (src/src/agents/analyzer.ts
203-212): a string-keyed map lookup; unknown strings map to `NONE`. -/
def parseActionString (s : String) : RecommendedAction :=
  if s = "NONE" then .NONE
  else if s = "MONITOR" then .MONITOR
  else if s = "CLAIM_REWARDS" then .CLAIM_REWARDS
  else if s = "REBALANCE" then .REBALANCE
  else if s = "URGENT_REBALANCE" then .URGENT_REBALANCE
  else .NONE

/-- Embedding of `AnalyzerAgent.estimateRewardsNeeded` (analyzer.ts
261-267); BigInt division truncates toward zero, hence `Int.div`. -/
def estimateRewardsNeeded (m : VaultHealthMetrics) : ℤ :=
  let requiredCollateral := Int.tdiv (m.debtValue * 10000) 5500
  let additional := requiredCollateral - m.collateralValue
  if 0 < additional then additional else 0

/-- Embedding of `AnalyzerAgent.fallbackAnalysis` (analyzer.ts 217-256). -/
def fallbackAnalysis (m : VaultHealthMetrics) (t : LtvThresholds) :
    AnalysisResult :=
  if t.liquidation ≤ m.ltvBps then
    { vaultId := m.vaultId, shouldAct := true, action := .URGENT_REBALANCE,
      reasoning := "CRITICAL: Vault at liquidation risk", confidence := 9/10,
      estimatedRewardsNeeded := estimateRewardsNeeded m,
      availableRewards := m.pendingRewards + m.rewardReserve }
  else if t.maxBorrow ≤ m.ltvBps then
    { vaultId := m.vaultId, shouldAct := true, action := .URGENT_REBALANCE,
      reasoning := "Vault LTV exceeds max borrow threshold", confidence := 9/10,
      estimatedRewardsNeeded := estimateRewardsNeeded m,
      availableRewards := m.pendingRewards + m.rewardReserve }
  else if t.rebalance ≤ m.ltvBps then
    { vaultId := m.vaultId,
      shouldAct := decide (0 < m.pendingRewards ∨ 0 < m.rewardReserve),
      action := .REBALANCE, reasoning := "Vault LTV in rebalance zone",
      confidence := 9/10, estimatedRewardsNeeded := estimateRewardsNeeded m,
      availableRewards := m.pendingRewards + m.rewardReserve }
  else if t.warning ≤ m.ltvBps then
    { vaultId := m.vaultId,
      shouldAct := decide (0 < m.pendingRewards ∨ 0 < m.rewardReserve),
      action := .CLAIM_REWARDS,
      reasoning := "Vault LTV in warning zone - claiming rewards as precaution",
      confidence := 9/10, estimatedRewardsNeeded := estimateRewardsNeeded m,
      availableRewards := m.pendingRewards + m.rewardReserve }
  else if 0 < m.pendingRewards ∨ 0 < m.rewardReserve then
    { vaultId := m.vaultId, shouldAct := true, action := .CLAIM_REWARDS,
      reasoning := "Vault healthy but rewards available - compounding yield",
      confidence := 9/10, estimatedRewardsNeeded := estimateRewardsNeeded m,
      availableRewards := m.pendingRewards + m.rewardReserve }
  else
    { vaultId := m.vaultId, shouldAct := false, action := .NONE,
      reasoning := "Vault is healthy and no funds available", confidence := 9/10,
      estimatedRewardsNeeded := estimateRewardsNeeded m,
      availableRewards := m.pendingRewards + m.rewardReserve }

/-- Fields of the first JSON object extracted from a Gemini analyzer reply
(analyzer.ts 186-196). The code applies `?? false`, `?? 0.5` and the default
reasoning for missing fields, so each field is optional here. -/
structure ParsedAnalysis where
  shouldAct : Option Bool
  action : String
  reasoning : Option String
  confidence : Option ℚ
deriving DecidableEq, Repr

/-- Embedding of `AnalyzerAgent.parseAnalysisResponse` (analyzer.ts
174-201), with the regex/JSON extraction of the reply text abstracted:
`parsed = none` models the no-JSON-object or JSON.parse-throws path. -/
def parseAnalysisResponse (vaultId : String) (parsed : Option ParsedAnalysis)
    (m : VaultHealthMetrics) (thresholds : LtvThresholds) : AnalysisResult :=
  match parsed with
  | some p =>
    { vaultId := vaultId, shouldAct := p.shouldAct.getD false,
      action := parseActionString p.action,
      reasoning := p.reasoning.getD "No reasoning provided",
      confidence := p.confidence.getD (1/2),
      estimatedRewardsNeeded := estimateRewardsNeeded m,
      availableRewards := m.pendingRewards + m.rewardReserve }
  | none => fallbackAnalysis m thresholds

/-- Outcome of the Gemini analyzer invocation as observed by `analyzeVault`:
either a reply whose JSON extraction yields `parsed`, or a thrown error. -/
inductive AnalyzerBackendOutcome where
  | reply (parsed : Option ParsedAnalysis)
  | failure
deriving DecidableEq, Repr

/-- Embedding of `AnalyzerAgent.analyzeVault` (analyzer.ts 81-127).
`strategyThresholds` is the profile resolved for the vault owner in step 1,
`none` when resolution failed (then `config.ltvThresholds` is substituted,
analyzer.ts line 98). On a reply the response is parsed against the
resolved thresholds; on a thrown backend error the catch block calls
`this.fallbackAnalysis(metrics, this.config.ltvThresholds)` (line 125) with
the config thresholds, not the resolved ones. -/
def analyzeVault (configThresholds : LtvThresholds)
    (strategyThresholds : Option LtvThresholds) (m : VaultHealthMetrics)
    (backend : AnalyzerBackendOutcome) : AnalysisResult :=
  let thresholds := strategyThresholds.getD configThresholds
  match backend with
  | .reply parsed => parseAnalysisResponse m.vaultId parsed m thresholds
  | .failure => fallbackAnalysis m configThresholds

/-- Descending-LTV ordering used by `analyzeVaults` (analyzer.ts 136): the
JS comparator `(a, b) => b.ltvBps - a.ltvBps` places `a` before `b` when
`b.ltvBps ≤ a.ltvBps`; `Array.prototype.sort` is stable, modelled by
`List.mergeSort`. -/
def sortByLtvDesc (ms : List VaultHealthMetrics) : List VaultHealthMetrics :=
  ms.mergeSort (fun a b => decide (b.ltvBps ≤ a.ltvBps))

/-- Embedding of `AnalyzerAgent.analyzeVaults` (analyzer.ts 132-144), with
the per-vault analysis (strategy resolution, rate limiting, backend call)
abstracted as `analyze`; results are pushed in processing order. -/
def analyzeVaults (analyze : VaultHealthMetrics → AnalysisResult)
    (ms : List VaultHealthMetrics) : List AnalysisResult :=
  (sortByLtvDesc ms).map analyze

/-- Demo scenario 5 of `VaultMonitor.getDemoMetrics` (vault-monitor.ts
153-162): AT_RISK at 6800 bps with no pending rewards and no reserve. -/
def atRiskNoFundsMetrics : VaultHealthMetrics :=
  { vaultId := "vault-demo", owner := "owner-demo",
    collateralValue := 100000000000, debtValue := 68000000000,
    ltvBps := 6800, healthStatus := .AT_RISK, rewardReserve := 0,
    pendingRewards := 0, recommendedAction := .NONE }

/-- A resolved owner strategy profile that differs from the config default
(profiles are supplied externally by the strategy collaborator). -/
def altThresholds : LtvThresholds :=
  { warning := 7000, rebalance := 7500, maxBorrow := 8000, liquidation := 9000 }

/-- Execution result (src/types `ExecutionResult`); optional fields default
to absent as in the TS object literals. -/
structure ExecutionResult where
  success : Bool
  action : String
  vaultId : String
  txDigest : Option String := none
  rewardsClaimed : Option ℤ := none
  collateralAdded : Option ℤ := none
  error : Option String := none
deriving DecidableEq, Repr

/-- Results produced by the Sui chain collaborator for the two write
operations (`SuiService.executeClaimAndRebalance` and
`SuiService.executeRebalanceFromReserve`, whose internal catch turns a
thrown error into a `success: false` result). -/
structure ChainOutcomes where
  claimAndRebalance : ExecutionResult
  rebalanceFromReserve : ExecutionResult
deriving DecidableEq, Repr

/-- Embedding of `ToolExecutor.execute` (src/src/index.ts part 96-118, the
file src/tools/executor.ts): dispatch on the tool name; the second
component counts on-chain write submissions performed by the call. -/
def toolExecute (chain : ChainOutcomes) (toolName : String)
    (argVaultId : String) : ExecutionResult × ℕ :=
  if toolName = "claim_and_rebalance" then (chain.claimAndRebalance, 1)
  else if toolName = "rebalance_from_reserve" then
    (chain.rebalanceFromReserve, 1)
  else if toolName = "skip_action" then
    ({ success := true, action := "skip", vaultId := argVaultId }, 0)
  else
    ({ success := false, action := toolName, vaultId := "unknown",
       error := some ("Unknown tool: " ++ toolName) }, 0)

/-- Rate-limiter list and cooldown map owned by one `ExecutorAgent`. -/
structure ExecutorState where
  rateCalls : List ℤ
  cooldown : CooldownMap

/-- Gemini executor invocation outcome as observed by `executeAction`: a
thrown error, a reply without a usable function call (absent list or
missing name), or a forced tool selection carrying its `vault_id` arg. -/
inductive ExecutorBackendOutcome where
  | failure
  | noToolCall
  | toolCall (name : String) (argVaultId : String)
deriving DecidableEq, Repr

/-- Final admitting iteration of `waitForSlot` at clock `t`: prune to recent
calls and record `t` (rate-limiter.ts lines 26 and 41). -/
def admitCall (calls : List ℤ) (t : ℤ) : List ℤ :=
  recentCalls calls t ++ [t]

/-- Embedding of `ExecutorAgent.fallbackExecution` (src/unnamed/part_002
lines 294-320): the local three-way priority policy; note it returns the
tool result directly and never touches the cooldown map. -/
def fallbackExecution (chain : ChainOutcomes) (analysis : AnalysisResult)
    (m : VaultHealthMetrics) (stakePositionId : Option String) :
    ExecutionResult × ℕ :=
  if stakePositionId.isSome ∧ 0 < m.pendingRewards then
    toolExecute chain "claim_and_rebalance" analysis.vaultId
  else if 0 < m.rewardReserve then
    toolExecute chain "rebalance_from_reserve" analysis.vaultId
  else
    toolExecute chain "skip_action" analysis.vaultId

/-- Outcome bundle of one `ExecutorAgent.executeAction` dispatch: the
execution result, the successor rate-limiter/cooldown state, whether the
Gemini backend was invoked, and how many on-chain writes were submitted. -/
structure DispatchOutcome where
  result : ExecutionResult
  state : ExecutorState
  backendInvoked : Bool
  writes : ℕ

/-- Embedding of `ExecutorAgent.executeAction` (part_002 lines 145-223).
`cooldownSeconds` is `config.rateLimits.minRebalanceIntervalSeconds`; `now`
is the clock at entry, and `admitTime` the clock at which `waitForSlot`
finally records the admitted call (its sleeps are modelled by this later
timestamp). Cooldown recording happens only on the tool-call path, when the
result succeeded and the tool was not `skip_action` (lines 213-216); the
catch path delegates to `fallbackExecution`, which never records. -/
def executeAction (cooldownSeconds : ℚ) (st : ExecutorState)
    (now admitTime : ℤ) (analysis : AnalysisResult) (m : VaultHealthMetrics)
    (stakePositionId : Option String) (backend : ExecutorBackendOutcome)
    (chain : ChainOutcomes) : DispatchOutcome :=
  if canAct st.cooldown cooldownSeconds analysis.vaultId now = false then
    { result :=
        { success := false, action := "cooldown", vaultId := analysis.vaultId,
          error := some ("Vault on cooldown for " ++
            toString (getTimeUntilReady st.cooldown cooldownSeconds
              analysis.vaultId now) ++ "s") },
      state := st, backendInvoked := false, writes := 0 }
  else
    let rateCalls := admitCall st.rateCalls admitTime
    match backend with
    | .failure =>
      let fb := fallbackExecution chain analysis m stakePositionId
      { result := fb.1,
        state := { rateCalls := rateCalls, cooldown := st.cooldown },
        backendInvoked := true, writes := fb.2 }
    | .noToolCall =>
      { result :=
          { success := false, action := "no_action",
            vaultId := analysis.vaultId,
            error := some "AI did not return a function call" },
        state := { rateCalls := rateCalls, cooldown := st.cooldown },
        backendInvoked := true, writes := 0 }
    | .toolCall name argVaultId =>
      let res := toolExecute chain name argVaultId
      let cooldown' :=
        if res.1.success = true ∧ name ≠ "skip_action" then
          recordAction st.cooldown analysis.vaultId now
        else st.cooldown
      { result := res.1,
        state := { rateCalls := rateCalls, cooldown := cooldown' },
        backendInvoked := true, writes := res.2 }

/-- Dispatch priority of an action (`ExecutorAgent.executeActions`,
part_002 lines 235-241). -/
def priorityOf : RecommendedAction → ℤ
  | .URGENT_REBALANCE => 3
  | .REBALANCE => 2
  | .CLAIM_REWARDS => 1
  | .MONITOR => 0
  | .NONE => 0

/-- Actionable filter of `executeActions` (part_002 line 244):
`a.shouldAct && a.action !== RecommendedAction.NONE`. -/
def actionableAnalyses (as : List AnalysisResult) : List AnalysisResult :=
  as.filter (fun a => a.shouldAct && decide (a.action ≠ .NONE))

/-- Severity-descending ordering of `executeActions` (part_002 line 245):
the JS comparator `priority[b.action] - priority[a.action]` places `a`
before `b` when `priority b ≤ priority a`; the stable JS sort is modelled
by `List.mergeSort`. -/
def sortBySeverityDesc (as : List AnalysisResult) : List AnalysisResult :=
  as.mergeSort (fun a b => decide (priorityOf b.action ≤ priorityOf a.action))

/-- Embedding of `ExecutorAgent.executeActions` (part_002 lines 228-267)
with the per-vault dispatch abstracted as `dispatch`; analyses whose vault
is missing from the metrics map are skipped (the `continue`). -/
def executeActions
    (dispatch : AnalysisResult → VaultHealthMetrics → Option String →
      ExecutionResult)
    (metricsMap : String → Option VaultHealthMetrics)
    (positionsMap : String → Option String) (as : List AnalysisResult) :
    List ExecutionResult :=
  (sortBySeverityDesc (actionableAnalyses as)).filterMap
    (fun a => (metricsMap a.vaultId).map
      (fun m => dispatch a m (positionsMap a.vaultId)))

/-- Start time (ms after `start()`) of the n-th monitoring cycle under
`VaultMonitor.start` (src/src/services/vault-monitor.ts lines 56-62): an
immediate first cycle, then `setInterval` fires every
`monitorIntervalSeconds * 1000` ms. The callback
`() => this.runMonitoringCycle()` is not awaited and no guard checks for an
in-flight cycle, so the start times are independent of cycle durations. -/
def cycleStart (intervalMs : ℕ) (n : ℕ) : ℕ := n * intervalMs

/-- Two consecutive monitoring cycles overlap when the next cycle starts
before the previous one has run for its full duration. -/
def cyclesOverlap (intervalMs : ℕ) (dur : ℕ → ℕ) : Prop :=
  ∃ n, cycleStart intervalMs (n + 1) < cycleStart intervalMs n + dur n

/-- Concrete analysis fixture for the dispatch scenarios (vault v1). -/
def demoAnalysis : AnalysisResult :=
  { vaultId := "v1", shouldAct := true, action := .REBALANCE,
    reasoning := "rebalance zone", confidence := 9/10,
    estimatedRewardsNeeded := 0, availableRewards := 1 }

/-- Concrete metrics fixture with pending rewards available (vault v1). -/
def demoMetricsFunds : VaultHealthMetrics :=
  { vaultId := "v1", owner := "owner-demo", collateralValue := 100000000000,
    debtValue := 50000000000, ltvBps := 5000, healthStatus := .HEALTHY,
    rewardReserve := 0, pendingRewards := 5000000000,
    recommendedAction := .NONE }

/-- Chain collaborator fixture whose writes both succeed. -/
def okChain : ChainOutcomes :=
  { claimAndRebalance :=
      { success := true, action := "claim_and_rebalance", vaultId := "v1",
        txDigest := some "0xdigest1" },
    rebalanceFromReserve :=
      { success := true, action := "rebalance_from_reserve", vaultId := "v1",
        txDigest := some "0xdigest2" } }

end Octopus

namespace Octopus

/-- Helper: a window count never exceeds the list length. -/
theorem countWindow_le_length (calls : List ℤ) (T : ℤ) :
    countWindow calls T ≤ calls.length :=
  List.length_filter_le _ _

/-- Helper: filtering the recorded list can only shrink a window count. -/
theorem countWindow_filter_le (calls : List ℤ) (p : ℤ → Bool) (T : ℤ) :
    countWindow (calls.filter p) T ≤ countWindow calls T := by
  unfold countWindow
  exact ((List.filter_sublist calls).filter _).length_le

/-- Helper: a single `waitForSlot` evaluation preserves the window bound. -/
theorem waitForSlotStep_preserves_bound (maxCalls : ℕ) (calls : List ℤ)
    (now : ℤ) (h : ∀ T, countWindow calls T ≤ maxCalls) :
    ∀ T, countWindow (waitForSlotStep maxCalls calls now).1 T ≤ maxCalls := by
  intro T
  unfold waitForSlotStep
  by_cases hfull : maxCalls ≤ (recentCalls calls now).length
  · simp only [hfull, if_pos]
    exact le_trans (countWindow_filter_le calls _ T) (h T)
  · simp only [hfull, if_neg, not_false_eq_true]
    calc countWindow (recentCalls calls now ++ [now]) T
        ≤ (recentCalls calls now ++ [now]).length := countWindow_le_length _ _
      _ = (recentCalls calls now).length + 1 := by simp
      _ ≤ maxCalls := by omega

/-- Helper: the window bound holds along any fold of admission attempts. -/
theorem rateLimiterRun_bound_aux (maxCalls : ℕ) (attempts : List ℤ) :
    ∀ calls, (∀ T, countWindow calls T ≤ maxCalls) →
      ∀ T, countWindow
        (attempts.foldl
          (fun calls now => (waitForSlotStep maxCalls calls now).1) calls) T ≤
        maxCalls := by
  induction attempts with
  | nil => intro calls h T; exact h T
  | cons a rest ih =>
    intro calls h T
    exact ih _ (waitForSlotStep_preserves_bound maxCalls calls a h) T

/-- C3: for every sequence of admission attempts, no trailing 60000 ms window
ever holds more than `maxCallsPerMinute` recorded timestamps; a caller that
finds the window full is told to wait until the oldest recent call plus
60000 ms plus the 100 ms safety margin (and at that re-check time the oldest
recent call has aged out, so the recheck makes progress); the current
timestamp is appended exactly on admission. -/
theorem rateLimiter_sliding_window_invariant :
    (∀ (maxCalls : ℕ) (attempts : List ℤ) (T : ℤ),
      countWindow (rateLimiterRun maxCalls attempts) T ≤ maxCalls) ∧
    (∀ (maxCalls : ℕ) (calls : List ℤ) (now : ℤ),
      List.Sorted (· ≤ ·) calls → 0 < maxCalls →
      maxCalls ≤ (recentCalls calls now).length →
      (waitForSlotStep maxCalls calls now).2 =
        .wait ((recentCalls calls now).headD 0 + 60000 - now + 100) ∧
      (∀ t ∈ recentCalls calls now, (recentCalls calls now).headD 0 ≤ t) ∧
      (recentCalls (recentCalls calls now)
          ((recentCalls calls now).headD 0 + 60100)).length <
        (recentCalls calls now).length) ∧
    (∀ (maxCalls : ℕ) (calls : List ℤ) (now : ℤ),
      ((waitForSlotStep maxCalls calls now).2 = .admitted →
        (waitForSlotStep maxCalls calls now).1 = recentCalls calls now ++ [now]) ∧
      (∀ w, (waitForSlotStep maxCalls calls now).2 = .wait w →
        (waitForSlotStep maxCalls calls now).1 = recentCalls calls now)) := by
  refine ⟨fun maxCalls attempts T => ?_, fun maxCalls calls now hsort hpos hfull => ?_,
    fun maxCalls calls now => ?_⟩
  · exact rateLimiterRun_bound_aux maxCalls attempts [] (by intro T; simp [countWindow]) T
  · have hrecsort : List.Sorted (· ≤ ·) (recentCalls calls now) :=
      List.Sorted.filter _ hsort
    have hne : recentCalls calls now ≠ [] := by
      intro hnil
      rw [hnil] at hfull
      simp at hfull
      omega
    refine ⟨?_, ?_, ?_⟩
    · unfold waitForSlotStep
      simp [hfull]
    · intro t ht
      cases hrec : recentCalls calls now with
      | nil => exact absurd hrec hne
      | cons a as =>
        rw [hrec] at ht hrecsort
        simp only [List.headD_cons]
        rcases List.mem_cons.mp ht with h | h
        · omega
        · exact List.rel_of_sorted_cons hrecsort t h
    · cases hrec : recentCalls calls now with
      | nil => exact absurd hrec hne
      | cons a as =>
        simp only [List.headD_cons]
        apply List.length_filter_lt_length_iff_exists.mpr
        refine ⟨a, List.mem_cons_self a as, ?_⟩
        simp
        omega
  · constructor
    · intro hadm
      unfold waitForSlotStep at hadm ⊢
      by_cases hfull : maxCalls ≤ (recentCalls calls now).length
      · simp [hfull] at hadm
      · simp [hfull]
    · intro w hwait
      unfold waitForSlotStep at hwait ⊢
      by_cases hfull : maxCalls ≤ (recentCalls calls now).length
      · simp [hfull]
      · simp [hfull] at hwait

/-- Witness for C3: a two-call burst at the cap of 1 per minute. -/
theorem rateLimiter_sliding_window_invariant_witness :
    countWindow (rateLimiterRun 1 [1000, 1500]) 1500 ≤ 1 ∧
    List.Sorted (· ≤ ·) [(1000 : ℤ)] ∧ (0 : ℕ) < 1 ∧
    1 ≤ (recentCalls [(1000 : ℤ)] 1500).length ∧
    (waitForSlotStep 1 [(1000 : ℤ)] 1500).2 = .wait 59600 := by
  refine ⟨rateLimiter_sliding_window_invariant.1 1 [1000, 1500] 1500,
    by decide, by decide, by decide, ?_⟩
  have h := (rateLimiter_sliding_window_invariant.2.1 1 [(1000 : ℤ)] 1500
    (by decide) (by decide) (by decide)).1
  rw [h]
  decide

/-- C4: after `recordAction` the gate blocks immediately (for a positive
cooldown and a nonzero clock), opens exactly when the elapsed seconds reach
`cooldownSeconds`, is open for entities never recorded, `cleanup` removes
exactly the records strictly older than twice the cooldown, and a cooldown
of 0 disables gating (under a monotone clock). -/
theorem cooldown_gate_behavior :
    (∀ (m : CooldownMap) (c : ℚ) (id : String) (now : ℤ),
      0 < c → now ≠ 0 → canAct (recordAction m id now) c id now = false) ∧
    (∀ (m : CooldownMap) (c : ℚ) (id : String) (t now : ℤ), t ≠ 0 →
      (canAct (recordAction m id t) c id now = true ↔
        c ≤ (((now : ℚ) - (t : ℚ)) / 1000))) ∧
    (∀ (m : CooldownMap) (c : ℚ) (id : String) (now : ℤ),
      m id = none → canAct m c id now = true) ∧
    (∀ (m : CooldownMap) (c : ℚ) (now : ℤ) (k : String),
      (cleanupCooldown m c now k = none ↔
        (m k = none ∨ ∃ t, m k = some t ∧ c * 2 * 1000 < ((now - t : ℤ) : ℚ))) ∧
      (∀ t, m k = some t → ¬(c * 2 * 1000 < ((now - t : ℤ) : ℚ)) →
        cleanupCooldown m c now k = some t)) ∧
    (∀ (m : CooldownMap) (id : String) (now : ℤ),
      (∀ t, m id = some t → t ≤ now) → canAct m 0 id now = true) := by
  have canAct_record : ∀ (m : CooldownMap) (c : ℚ) (id : String) (t now : ℤ),
      canAct (recordAction m id t) c id now =
        if t = 0 then true
        else decide (c ≤ (((now : ℚ) - (t : ℚ)) / 1000)) := by
    intro m c id t now
    unfold canAct recordAction
    simp
  refine ⟨?_, ?_, ?_, ?_, ?_⟩
  · intro m c id now hc hnow
    rw [canAct_record, if_neg hnow]
    simp only [decide_eq_false_iff_not, not_le, sub_self, zero_div]
    exact hc
  · intro m c id t now ht
    rw [canAct_record, if_neg ht]
    simp
  · intro m c id now hm
    unfold canAct
    rw [hm]
  · intro m c now k
    constructor
    · unfold cleanupCooldown
      cases hm : m k with
      | none => simp
      | some t =>
        by_cases hold : c * 2 * 1000 < ((now - t : ℤ) : ℚ)
        · simp only [if_pos hold]
          constructor
          · intro _
            exact Or.inr ⟨t, rfl, hold⟩
          · intro _
            trivial
        · simp only [if_neg hold]
          constructor
          · intro h
            exact absurd h (by simp)
          · rintro (h | ⟨t', ht', hlt⟩)
            · exact absurd h (by simp)
            · obtain rfl : t = t' := by injection ht'
              exact absurd hlt hold
    · intro t hmt hfresh
      unfold cleanupCooldown
      rw [hmt]
      exact if_neg hfresh
  · intro m id now hmono
    unfold canAct
    cases hm : m id with
    | none => rfl
    | some t =>
      by_cases ht : t = 0
      · simp [ht]
      · have := hmono t hm
        have hnum : (0 : ℚ) ≤ (now : ℚ) - (t : ℚ) := by
          rw [sub_nonneg]
          exact_mod_cast this
        simp only [ht, if_false, decide_eq_true_eq]
        exact div_nonneg hnum (by norm_num)

/-- Witness for C4 at concrete times: cooldown 300 s, record at 1000000 ms. -/
theorem cooldown_gate_behavior_witness :
    canAct (recordAction emptyCooldown "vault1" 1000000) 300 "vault1" 1000000 = false ∧
    (canAct (recordAction emptyCooldown "vault1" 1000000) 300 "vault1" 1301000 = true ↔
      (300 : ℚ) ≤ (((1301000 : ℚ) - (1000000 : ℚ)) / 1000)) ∧
    canAct emptyCooldown 300 "vault2" 5 = true ∧
    canAct (recordAction emptyCooldown "vault1" 1000000) 0 "vault1" 1000000 = true := by
  refine ⟨cooldown_gate_behavior.1 emptyCooldown 300 "vault1" 1000000
      (by norm_num) (by decide),
    cooldown_gate_behavior.2.1 emptyCooldown 300 "vault1" 1000000 1301000 (by decide),
    cooldown_gate_behavior.2.2.1 emptyCooldown 300 "vault2" 5 rfl,
    cooldown_gate_behavior.2.2.2.2 (recordAction emptyCooldown "vault1" 1000000)
      "vault1" 1000000 ?_⟩
  intro t hsome
  unfold recordAction emptyCooldown at hsome
  simp at hsome
  omega

/-- C1: the health classification is a total function evaluating boundaries
most-severe-first with inclusive lower bounds; for strictly increasing
boundaries the tier is non-decreasing in `ltvBps` and each boundary-exact
value classifies into the higher tier. -/
theorem classifyHealth_case_table_monotone_and_boundaries :
    (∀ (ltv : ℤ) (t : LtvThresholds),
      (t.liquidation ≤ ltv →
        classifyHealth ltv t = (.LIQUIDATABLE, .URGENT_REBALANCE)) ∧
      (ltv < t.liquidation → t.maxBorrow ≤ ltv →
        classifyHealth ltv t = (.CRITICAL, .URGENT_REBALANCE)) ∧
      (ltv < t.liquidation → ltv < t.maxBorrow → t.rebalance ≤ ltv →
        classifyHealth ltv t = (.AT_RISK, .REBALANCE)) ∧
      (ltv < t.liquidation → ltv < t.maxBorrow → ltv < t.rebalance →
        t.warning ≤ ltv → classifyHealth ltv t = (.WARNING, .CLAIM_REWARDS)) ∧
      (ltv < t.liquidation → ltv < t.maxBorrow → ltv < t.rebalance →
        ltv < t.warning → classifyHealth ltv t = (.HEALTHY, .NONE))) ∧
    (∀ (t : LtvThresholds), t.StrictlyIncreasing →
      ∀ ltv₁ ltv₂ : ℤ, ltv₁ ≤ ltv₂ →
        tierRank (classifyHealth ltv₁ t).1 ≤ tierRank (classifyHealth ltv₂ t).1) ∧
    (∀ (t : LtvThresholds), t.StrictlyIncreasing →
      classifyHealth t.warning t = (.WARNING, .CLAIM_REWARDS) ∧
      classifyHealth t.rebalance t = (.AT_RISK, .REBALANCE) ∧
      classifyHealth t.maxBorrow t = (.CRITICAL, .URGENT_REBALANCE) ∧
      classifyHealth t.liquidation t = (.LIQUIDATABLE, .URGENT_REBALANCE)) := by
  refine ⟨fun ltv t => ?_, fun t ht ltv₁ ltv₂ hle => ?_, fun t ht => ?_⟩
  · unfold classifyHealth
    refine ⟨fun h => ?_, fun h1 h2 => ?_, fun h1 h2 h3 => ?_,
      fun h1 h2 h3 h4 => ?_, fun h1 h2 h3 h4 => ?_⟩ <;>
      split_ifs <;> first | rfl | omega
  · obtain ⟨h1, h2, h3⟩ := ht
    unfold classifyHealth
    split_ifs <;> simp [tierRank] <;> omega
  · obtain ⟨h1, h2, h3⟩ := ht
    unfold classifyHealth
    refine ⟨?_, ?_, ?_, ?_⟩ <;> split_ifs <;> first | rfl | omega

/-- Witness for C1 at the system default profile. -/
theorem classifyHealth_case_table_monotone_and_boundaries_witness :
    defaultThresholds.StrictlyIncreasing ∧
    tierRank (classifyHealth 4500 defaultThresholds).1 ≤
      tierRank (classifyHealth 8500 defaultThresholds).1 ∧
    classifyHealth defaultThresholds.warning defaultThresholds =
      (.WARNING, .CLAIM_REWARDS) := by
  refine ⟨by decide, ?_, ?_⟩
  · exact (classifyHealth_case_table_monotone_and_boundaries.2.1
      defaultThresholds (by decide) 4500 8500 (by decide))
  · exact ((classifyHealth_case_table_monotone_and_boundaries.2.2
      defaultThresholds (by decide)).1)

end Octopus

namespace Octopus

/-- C2: the deterministic fallback analysis follows the five-branch rule
table exactly, its confidence is always 0.9, and in the AT_RISK-no-funds
demo scenario (ltvBps 6800, no pending rewards, no reserve, default
profile) it returns shouldAct = false. -/
theorem fallbackAnalysis_rule_table :
    (∀ (m : VaultHealthMetrics) (t : LtvThresholds),
      (t.liquidation ≤ m.ltvBps →
        (fallbackAnalysis m t).shouldAct = true ∧
        (fallbackAnalysis m t).action = .URGENT_REBALANCE) ∧
      (m.ltvBps < t.liquidation → t.maxBorrow ≤ m.ltvBps →
        (fallbackAnalysis m t).shouldAct = true ∧
        (fallbackAnalysis m t).action = .URGENT_REBALANCE) ∧
      (m.ltvBps < t.liquidation → m.ltvBps < t.maxBorrow →
        t.rebalance ≤ m.ltvBps →
        ((fallbackAnalysis m t).shouldAct = true ↔
          (0 < m.pendingRewards ∨ 0 < m.rewardReserve)) ∧
        (fallbackAnalysis m t).action = .REBALANCE) ∧
      (m.ltvBps < t.liquidation → m.ltvBps < t.maxBorrow →
        m.ltvBps < t.rebalance → t.warning ≤ m.ltvBps →
        ((fallbackAnalysis m t).shouldAct = true ↔
          (0 < m.pendingRewards ∨ 0 < m.rewardReserve)) ∧
        (fallbackAnalysis m t).action = .CLAIM_REWARDS) ∧
      (m.ltvBps < t.liquidation → m.ltvBps < t.maxBorrow →
        m.ltvBps < t.rebalance → m.ltvBps < t.warning →
        ((0 < m.pendingRewards ∨ 0 < m.rewardReserve) →
          (fallbackAnalysis m t).shouldAct = true ∧
          (fallbackAnalysis m t).action = .CLAIM_REWARDS) ∧
        (¬(0 < m.pendingRewards ∨ 0 < m.rewardReserve) →
          (fallbackAnalysis m t).shouldAct = false ∧
          (fallbackAnalysis m t).action = .NONE))) ∧
    (∀ (m : VaultHealthMetrics) (t : LtvThresholds),
      (fallbackAnalysis m t).confidence = 9/10) ∧
    (fallbackAnalysis atRiskNoFundsMetrics defaultThresholds).shouldAct = false := by
  refine ⟨fun m t => ?_, fun m t => ?_, by decide⟩
  · refine ⟨fun h => ?_, fun h1 h2 => ?_, fun h1 h2 h3 => ?_,
      fun h1 h2 h3 h4 => ?_, fun h1 h2 h3 h4 => ?_⟩
    · unfold fallbackAnalysis
      rw [if_pos h]
      exact ⟨rfl, rfl⟩
    · unfold fallbackAnalysis
      rw [if_neg (not_le.mpr h1), if_pos h2]
      exact ⟨rfl, rfl⟩
    · unfold fallbackAnalysis
      rw [if_neg (not_le.mpr h1), if_neg (not_le.mpr h2), if_pos h3]
      exact ⟨by simp, rfl⟩
    · unfold fallbackAnalysis
      rw [if_neg (not_le.mpr h1), if_neg (not_le.mpr h2),
        if_neg (not_le.mpr h3), if_pos h4]
      exact ⟨by simp, rfl⟩
    · unfold fallbackAnalysis
      rw [if_neg (not_le.mpr h1), if_neg (not_le.mpr h2),
        if_neg (not_le.mpr h3), if_neg (not_le.mpr h4)]
      by_cases hf : 0 < m.pendingRewards ∨ 0 < m.rewardReserve
      · rw [if_pos hf]
        exact ⟨fun _ => ⟨rfl, rfl⟩, fun hnf => absurd hf hnf⟩
      · rw [if_neg hf]
        exact ⟨fun hff => absurd hff hf, fun _ => ⟨rfl, rfl⟩⟩
  · unfold fallbackAnalysis
    split_ifs <;> rfl

/-- Witness for C2 at the default profile: a LIQUIDATABLE vault acts with
URGENT_REBALANCE, and the rebalance-zone iff holds at the demo input. -/
theorem fallbackAnalysis_rule_table_witness :
    ((8000 : ℤ) ≤ (8500 : ℤ)) ∧
    (fallbackAnalysis { atRiskNoFundsMetrics with ltvBps := 8500 }
      defaultThresholds).shouldAct = true ∧
    (fallbackAnalysis { atRiskNoFundsMetrics with ltvBps := 8500 }
      defaultThresholds).action = .URGENT_REBALANCE := by
  have h := (fallbackAnalysis_rule_table.1
    { atRiskNoFundsMetrics with ltvBps := 8500 } defaultThresholds).1 (by decide)
  exact ⟨by decide, h.1, h.2⟩

/-- C6 counterexample: the owner profile resolves to `altThresholds`, the
backend invocation throws, and the fallback evaluates against the config
default profile instead of the resolved profile: at ltvBps 6800 the two
give different results (REBALANCE under the default, NONE under the
resolved profile). -/
theorem analyzeVault_failure_fallback_profile_counterexample :
    analyzeVault defaultThresholds (some altThresholds) atRiskNoFundsMetrics
        .failure ≠
      fallbackAnalysis atRiskNoFundsMetrics altThresholds ∧
    (analyzeVault defaultThresholds (some altThresholds) atRiskNoFundsMetrics
        .failure).action = .REBALANCE ∧
    (fallbackAnalysis atRiskNoFundsMetrics altThresholds).action = .NONE := by
  refine ⟨?_, by decide, by decide⟩
  intro h
  have := congrArg AnalysisResult.action h
  revert this
  decide

/-- C6 amended: on a parse failure the fallback uses the thresholds resolved
for the entity's owner in step 1 (the resolved strategy profile, or the
config default when resolution failed); on a backend invocation failure the
catch block always hands the fallback the config default thresholds,
regardless of the resolved profile. -/
theorem analyzeVault_fallback_threshold_sources :
    (∀ (cfg : LtvThresholds) (strat : Option LtvThresholds)
        (m : VaultHealthMetrics),
      analyzeVault cfg strat m (.reply none) =
        fallbackAnalysis m (strat.getD cfg)) ∧
    (∀ (cfg : LtvThresholds) (strat : Option LtvThresholds)
        (m : VaultHealthMetrics),
      analyzeVault cfg strat m .failure = fallbackAnalysis m cfg) := by
  exact ⟨fun cfg strat m => rfl, fun cfg strat m => rfl⟩

end Octopus

namespace Octopus

/-- Helper: evaluation of `executeAction` on the blocked-gate branch. -/
theorem executeAction_blocked_eval (c : ℚ) (st : ExecutorState)
    (now admitTime : ℤ) (a : AnalysisResult) (m : VaultHealthMetrics)
    (pos : Option String) (backend : ExecutorBackendOutcome)
    (chain : ChainOutcomes)
    (h : canAct st.cooldown c a.vaultId now = false) :
    executeAction c st now admitTime a m pos backend chain =
      { result :=
          { success := false, action := "cooldown", vaultId := a.vaultId,
            error := some ("Vault on cooldown for " ++
              toString (getTimeUntilReady st.cooldown c a.vaultId now) ++ "s") },
        state := st, backendInvoked := false, writes := 0 } := by
  unfold executeAction
  rw [h]
  simp

/-- C8: when the cooldown gate blocks, dispatch returns a failed result
tagged "cooldown" carrying the remaining wait time, and leaves the whole
executor state (rate-limiter window and cooldown map) untouched, performs
no backend call and submits no on-chain write. -/
theorem executeAction_cooldown_blocked (c : ℚ) (st : ExecutorState)
    (now admitTime : ℤ) (a : AnalysisResult) (m : VaultHealthMetrics)
    (pos : Option String) (backend : ExecutorBackendOutcome)
    (chain : ChainOutcomes)
    (h : canAct st.cooldown c a.vaultId now = false) :
    executeAction c st now admitTime a m pos backend chain =
      { result :=
          { success := false, action := "cooldown", vaultId := a.vaultId,
            error := some ("Vault on cooldown for " ++
              toString (getTimeUntilReady st.cooldown c a.vaultId now) ++ "s") },
        state := st, backendInvoked := false, writes := 0 } := by
  unfold executeAction
  rw [h]
  simp

/-- Witness for C8: vault v1 on a 300 s cooldown recorded 120 s ago. -/
theorem executeAction_cooldown_blocked_witness :
    canAct (recordAction emptyCooldown "v1" 1000000) 300
      demoAnalysis.vaultId 1120000 = false ∧
    (executeAction 300 ⟨[], recordAction emptyCooldown "v1" 1000000⟩ 1120000
      1120000 demoAnalysis demoMetricsFunds none .failure okChain).writes = 0 ∧
    (executeAction 300 ⟨[], recordAction emptyCooldown "v1" 1000000⟩ 1120000
      1120000 demoAnalysis demoMetricsFunds none .failure
      okChain).backendInvoked = false ∧
    (executeAction 300 ⟨[], recordAction emptyCooldown "v1" 1000000⟩ 1120000
      1120000 demoAnalysis demoMetricsFunds none .failure
      okChain).result.action = "cooldown" := by
  have hblock : canAct (recordAction emptyCooldown "v1" 1000000) 300
      demoAnalysis.vaultId 1120000 = false := by
    simp only [canAct, recordAction, emptyCooldown, demoAnalysis]
    norm_num
  have h := executeAction_cooldown_blocked 300
    ⟨[], recordAction emptyCooldown "v1" 1000000⟩ 1120000 1120000 demoAnalysis
    demoMetricsFunds none .failure okChain hblock
  rw [h]
  exact ⟨hblock, rfl, rfl, rfl⟩

/-- C5 counterexample: with the cooldown gate open, a backend invocation
failure routes through `fallbackExecution`, which performs a successful
real on-chain write (claim-and-rebalance, one write submission, success
true) yet leaves the vault's cooldown record unset — refuting the claim
that a successful real write always stamps the cooldown on the
deterministic fallback path. -/
theorem executor_fallback_write_skips_cooldown_counterexample :
    (executeAction 300 ⟨[], emptyCooldown⟩ 1000000 1000000 demoAnalysis
      demoMetricsFunds (some "pos1") .failure okChain).result.success = true ∧
    (executeAction 300 ⟨[], emptyCooldown⟩ 1000000 1000000 demoAnalysis
      demoMetricsFunds (some "pos1") .failure okChain).result.action =
      "claim_and_rebalance" ∧
    (executeAction 300 ⟨[], emptyCooldown⟩ 1000000 1000000 demoAnalysis
      demoMetricsFunds (some "pos1") .failure okChain).writes = 1 ∧
    (executeAction 300 ⟨[], emptyCooldown⟩ 1000000 1000000 demoAnalysis
      demoMetricsFunds (some "pos1") .failure okChain).state.cooldown "v1" =
      none := by
  exact ⟨rfl, rfl, rfl, rfl⟩

/-- C5 amended: on the backend tool-selection path the cooldown record is
stamped exactly when the tool result succeeded and the chosen tool was not
skip_action; on the fallback path (backend failure) and on the no-tool-call
path the cooldown map is never stamped, even after a successful real write;
and the cooldown scenario holds: a successful real write at t₀ = 1000000 ms
with cooldownSeconds = 300 stamps t₀, a dispatch 120 s later is reported as
"cooldown" with zero writes, and 301 s after t₀ the gate is open again. -/
theorem executor_cooldown_recording :
    (∀ (c : ℚ) (st : ExecutorState) (now admitTime : ℤ) (a : AnalysisResult)
        (m : VaultHealthMetrics) (pos : Option String) (name argId : String)
        (chain : ChainOutcomes),
      canAct st.cooldown c a.vaultId now = true →
      (executeAction c st now admitTime a m pos (.toolCall name argId)
          chain).state.cooldown =
        (if (toolExecute chain name argId).1.success = true ∧
            name ≠ "skip_action" then
          recordAction st.cooldown a.vaultId now
        else st.cooldown)) ∧
    (∀ (c : ℚ) (st : ExecutorState) (now admitTime : ℤ) (a : AnalysisResult)
        (m : VaultHealthMetrics) (pos : Option String) (chain : ChainOutcomes),
      (executeAction c st now admitTime a m pos .failure
          chain).state.cooldown = st.cooldown ∧
      (executeAction c st now admitTime a m pos .noToolCall
          chain).state.cooldown = st.cooldown) ∧
    ((executeAction 300 ⟨[], emptyCooldown⟩ 1000000 1000000 demoAnalysis
        demoMetricsFunds (some "pos1")
        (.toolCall "claim_and_rebalance" "v1") okChain).state.cooldown "v1" =
      some 1000000 ∧
     (executeAction 300 ⟨[], recordAction emptyCooldown "v1" 1000000⟩ 1120000
        1120000 demoAnalysis demoMetricsFunds (some "pos1")
        (.toolCall "claim_and_rebalance" "v1") okChain).result.action =
      "cooldown" ∧
     (executeAction 300 ⟨[], recordAction emptyCooldown "v1" 1000000⟩ 1120000
        1120000 demoAnalysis demoMetricsFunds (some "pos1")
        (.toolCall "claim_and_rebalance" "v1") okChain).writes = 0 ∧
     canAct (recordAction emptyCooldown "v1" 1000000) 300 "v1" 1301000 =
      true) := by
  have hb : canAct (recordAction emptyCooldown "v1" 1000000) 300
      demoAnalysis.vaultId 1120000 = false := by
    simp only [canAct, recordAction, emptyCooldown, demoAnalysis]
    norm_num
  have hblocked := executeAction_blocked_eval 300
    ⟨[], recordAction emptyCooldown "v1" 1000000⟩ 1120000 1120000 demoAnalysis
    demoMetricsFunds (some "pos1") (.toolCall "claim_and_rebalance" "v1")
    okChain hb
  refine ⟨?_, ?_, by rfl, ?_, ?_, ?_⟩
  · intro c st now admitTime a m pos name argId chain h
    unfold executeAction
    rw [h]
    simp
  · intro c st now admitTime a m pos chain
    constructor <;>
      (unfold executeAction
       by_cases h : canAct st.cooldown c a.vaultId now = false <;> simp [h])
  · rw [hblocked]
  · rw [hblocked]
  · simp only [canAct, recordAction, emptyCooldown]
    norm_num

/-- Witness for C5's amended theorem: the open-gate hypothesis is
discharged at the fixture, and the successful claim-and-rebalance tool
call stamps the cooldown with the dispatch clock. -/
theorem executor_cooldown_recording_witness :
    canAct emptyCooldown 300 demoAnalysis.vaultId 1000000 = true ∧
    (executeAction 300 ⟨[], emptyCooldown⟩ 1000000 1000000 demoAnalysis
      demoMetricsFunds (some "pos1") (.toolCall "claim_and_rebalance" "v2")
      okChain).state.cooldown "v1" = some 1000000 := by
  have hopen : canAct emptyCooldown 300 demoAnalysis.vaultId 1000000 = true :=
    by decide
  have h := executor_cooldown_recording.1 300 ⟨[], emptyCooldown⟩ 1000000
    1000000 demoAnalysis demoMetricsFunds (some "pos1") "claim_and_rebalance"
    "v2" okChain hopen
  refine ⟨hopen, ?_⟩
  rw [h]
  decide

/-- C10: for a tool name that is none of the three declared tools, the tool
executor returns a failed result with vaultId "unknown" and an error naming
the unknown tool, and submits no on-chain write. -/
theorem toolExecute_unknown_tool (chain : ChainOutcomes)
    (name argId : String) (h1 : name ≠ "claim_and_rebalance")
    (h2 : name ≠ "rebalance_from_reserve") (h3 : name ≠ "skip_action") :
    toolExecute chain name argId =
      ({ success := false, action := name, vaultId := "unknown",
         error := some ("Unknown tool: " ++ name) }, 0) := by
  unfold toolExecute
  rw [if_neg h1, if_neg h2, if_neg h3]

/-- Witness for C10 at the undeclared tool name "transfer_funds". -/
theorem toolExecute_unknown_tool_witness :
    toolExecute okChain "transfer_funds" "v1" =
      ({ success := false, action := "transfer_funds", vaultId := "unknown",
         error := some ("Unknown tool: " ++ "transfer_funds") }, 0) :=
  toolExecute_unknown_tool okChain "transfer_funds" "v1" (by decide)
    (by decide) (by decide)

end Octopus

namespace Octopus

/-- C7: batch analysis processes vaults and emits results in descending
ltvBps order (the processed list is a permutation of the input, sorted
descending by ltvBps, and the emitted results are its image in order);
batch dispatch filters to shouldAct = true with action ≠ NONE and processes
the filtered analyses in descending action-severity order, whatever order
the analyses arrive in. -/
theorem batch_processing_order :
    (∀ (ms : List VaultHealthMetrics),
      (sortByLtvDesc ms).Perm ms ∧
      List.Sorted (fun a b => b.ltvBps ≤ a.ltvBps) (sortByLtvDesc ms) ∧
      (∀ analyze, analyzeVaults analyze ms = (sortByLtvDesc ms).map analyze)) ∧
    (∀ (as : List AnalysisResult),
      (sortBySeverityDesc (actionableAnalyses as)).Perm
        (as.filter (fun a => a.shouldAct && decide (a.action ≠ .NONE))) ∧
      List.Sorted (fun a b => priorityOf b.action ≤ priorityOf a.action)
        (sortBySeverityDesc (actionableAnalyses as)) ∧
      (∀ dispatch mm pm, executeActions dispatch mm pm as =
        (sortBySeverityDesc (actionableAnalyses as)).filterMap
          (fun a => (mm a.vaultId).map (fun m => dispatch a m (pm a.vaultId))))) := by
  constructor
  · intro ms
    refine ⟨List.mergeSort_perm ms _, ?_, fun analyze => rfl⟩
    have hs := @List.sorted_mergeSort VaultHealthMetrics
      (fun a b => decide (b.ltvBps ≤ a.ltvBps))
      (fun a b c hab hbc => by
        simp only [decide_eq_true_eq] at hab hbc ⊢
        exact le_trans hbc hab)
      (fun a b => by
        simp only [Bool.or_eq_true, decide_eq_true_eq]
        exact le_total b.ltvBps a.ltvBps)
      ms
    exact List.Pairwise.imp (fun h => by simpa using h) hs
  · intro as
    refine ⟨List.mergeSort_perm (actionableAnalyses as) _, ?_,
      fun dispatch mm pm => rfl⟩
    have hs := @List.sorted_mergeSort AnalysisResult
      (fun a b => decide (priorityOf b.action ≤ priorityOf a.action))
      (fun a b c hab hbc => by
        simp only [decide_eq_true_eq] at hab hbc ⊢
        exact le_trans hbc hab)
      (fun a b => by
        simp only [Bool.or_eq_true, decide_eq_true_eq]
        exact le_total (priorityOf b.action) (priorityOf a.action))
      (actionableAnalyses as)
    exact List.Pairwise.imp (fun h => by simpa using h) hs

/-- C9 evaluated at the failing input, plus the general characterization of
the free-running `setInterval` scheduler: with a 1000 ms interval and every
cycle lasting 3000 ms, cycle 1 starts at 1000 ms while cycle 0 is still
executing — cycles overlap; in general overlap occurs exactly when some
cycle outlasts the interval, so the claimed never-overlap property fails
whenever a cycle exceeds the monitoring interval. -/
theorem monitor_free_running_scheduler_overlaps :
    cyclesOverlap 1000 (fun _ => 3000) ∧
    (∀ (intervalMs : ℕ) (dur : ℕ → ℕ),
      cyclesOverlap intervalMs dur ↔ ∃ n, intervalMs < dur n) := by
  constructor
  · exact ⟨0, by norm_num [cycleStart, cyclesOverlap]⟩
  · intro I dur
    unfold cyclesOverlap cycleStart
    constructor
    · rintro ⟨n, h⟩
      refine ⟨n, ?_⟩
      have hm : (n + 1) * I = n * I + I := by ring
      omega
    · rintro ⟨n, h⟩
      refine ⟨n, ?_⟩
      have hm : (n + 1) * I = n * I + I := by ring
      omega

end Octopus
